/-
  Verification of jsha/ocsp-crawl (src/ocsp-crawl.go) against its
  natural-language specification.

  Shallow embedding conventions:
  * `time.Time` and `time.Duration` are modelled as `Int` nanoseconds;
    the Go zero `time.Time` is `0`, `t.After u` is `t > u`, `t.Sub u` is
    `t - u`.  `time.Second = 10^9` ns, `time.Millisecond = 10^6` ns.
  * External collaborators (x509 parsing, OCSP request building, HTTP,
    OCSP response parsing) are modelled as per-entry oracle fields on
    `Entry`: each field records the outcome the collaborator returns for
    that entry, and the embedded control flow consumes the outcomes
    exactly where the Go code consumes the collaborator results.
  * Go `int64` division (`time.Duration` division) truncates toward
    zero, which is `Int.tdiv`.
  * Output is modelled as a list of `Diag` events (each constructor one
    `fmt.Printf`/`fmt.Fprintf` line of the source, tagged by stream via
    `Diag.isStderr`) and the record channel as a `List Datum`.
-/
import Mathlib

namespace OcspCrawl

/-- Value of `time.Second` in nanoseconds. -/
def nsPerSecond : Int := 1000000000

/-- Value of `time.Millisecond` in nanoseconds. -/
def nsPerMillisecond : Int := 1000000

/-- Value of `time.Hour * 24 * 4` in nanoseconds (the 4-day staleness threshold). -/
def fourDays : Int := 345600 * 1000000000

/-- The trusted-issuer string compared at line 119 of the source. -/
def trustedIssuer : String := "Let\x27s Encrypt Authority X1"

/-- The exempted issuer of line 135. -/
def mergeDelayIssuer : String := "Merge Delay Intermediate 1"

/-- The fields of a parsed `x509.Certificate` that the program reads. -/
structure Cert where
  issuerCN : String
  notBefore : Int
  notAfter : Int
  serialNumber : Nat
  dnsNames : List String
  ocspServer : List String
deriving DecidableEq, Repr

/-- The fields of a parsed `ocsp.Response` that the program reads. -/
structure OcspResponse where
  thisUpdate : Int
  nextUpdate : Int
deriving DecidableEq, Repr

/-- One entry handed to the `entriesFile.Map` callback, together with the
outcomes of every external call the callback makes for it:
`entErr` is the `err` argument of the callback being non-nil;
`cert` is the result of `x509.ParseCertificate(ent.Entry.X509Cert)`;
`extraCertsParse` has one Bool per element of `ent.Entry.ExtraCerts`
(whether that certificate parses; only the first is ever parsed);
`createReqOk` is success of `ocsp.CreateRequest`; `reqB64` is the
base64 encoding of the request body; `postOk` is success of
`http.Post`; `readOk` is success of `ioutil.ReadAll` on the body;
`parsedResp` is the result of `ocsp.ParseResponse`; `latency` is the
measured `time.Now().Sub(start)` for the round trip. -/
structure Entry where
  entErr : Bool
  cert : Option Cert
  extraCertsParse : List Bool
  createReqOk : Bool
  reqB64 : String
  postOk : Bool
  readOk : Bool
  parsedResp : Option OcspResponse
  latency : Int
deriving DecidableEq, Repr

/-- The error stored in `data.ocspErr` (lines 166, 172, 178).  The
"error fetching" variant of line 166 is unreachable: the `err` it tests
was already checked at line 149, which returned.  It is kept for
structural fidelity. -/
inductive OcspErr where
  | fetchErr (names : String) (url : String)
  | readErr (names : String) (url : String)
  | parseErr (names : String) (url : String)
deriving DecidableEq, Repr

/-- The `data` struct sent on `dataChan` (lines 31-40). -/
structure Datum where
  serial : String
  notBefore : Int
  nextUpdate : Int
  thisUpdate : Int
  ocspLatency : Int
  ocspErr : Option OcspErr
  names : List String
  url : String
deriving DecidableEq, Repr

/-- One printed line.  Constructors carry the data interpolated into the
corresponding format string of the source. -/
inductive Diag where
  /-- line 130, stderr: "Failed to parse issuer: %s". -/
  | failedParseIssuer
  /-- line 136, stderr: "No OCSP Server for %s". -/
  | noOCSPServer (cn : String)
  /-- line 143, stderr: "Error creating OCSP request: %s". -/
  | errorCreatingRequest
  /-- line 150, stderr: "Error fetching OCSP: %s %s". -/
  | errorFetching (url : String)
  /-- line 162, stdout: "slow response (%dms) for %x: %s". -/
  | slowResponse (ms : Int) (serialUnpadded : String) (url : String)
  /-- line 205, stdout: verbose per-record line. -/
  | verboseLine (notBefore : Int) (serial : String) (names : String)
  /-- line 211, stderr: the `ocspErr` carried by the record. -/
  | errLine (e : OcspErr)
  /-- line 214, stderr: "Badly out of date response for %s: %s". -/
  | badlyOutOfDate (serial : String) (thisUpdate : Int)
  /-- line 217, stderr: "Out of date response for %s: %s %s". -/
  | outOfDate (serial : String) (thisUpdate : Int) (url : String)
deriving DecidableEq, Repr

/-- Stream tag of each printed line: `true` for `fmt.Fprintf(os.Stderr, ...)`,
`false` for `fmt.Printf` (stdout). -/
def Diag.isStderr : Diag → Bool
  | .slowResponse _ _ _ => false
  | .verboseLine _ _ _ => false
  | _ => true

/-- Go `fmt.Sprintf("%x", n)` for a non-negative big integer: lowercase
hex, no padding. -/
def natToHex (n : Nat) : String := String.mk (Nat.toDigits 16 n)

/-- Go `fmt.Sprintf("%032x", n)`: lowercase hex zero-padded to at least
32 characters (line 155). -/
def hex032 (n : Nat) : String :=
  let s := Nat.toDigits 16 n
  String.mk (List.replicate (32 - s.length) '0' ++ s)

/-- Go `strings.Join(names, ", ")`. -/
def joinComma (names : List String) : String := String.intercalate ", " names

/-- The body of the `entriesFile.Map` callback (lines 110-185) for one
entry, processed at wall-clock time `now` (the `time.Now()` of line
122): the diagnostic lines it prints and the `data` value it sends on
`dataChan`, if any. -/
def processEntry (now : Int) (e : Entry) : List Diag × Option Datum :=
  if e.entErr then ([], none)
  else match e.cert with
  | none => ([], none)
  | some cert =>
    if cert.issuerCN ≠ trustedIssuer then ([], none)
    else if now > cert.notAfter then ([], none)
    else
      -- lines 126-133: only the first extra cert is parsed; with no
      -- extra certs the issuer stays nil and no parse can fail
      if !e.extraCertsParse.headD true then ([.failedParseIssuer], none)
      else match cert.ocspServer with
      | [] =>
        if cert.issuerCN ≠ mergeDelayIssuer then ([.noOCSPServer cert.issuerCN], none)
        else ([], none)
      | server :: _ =>
        if !e.createReqOk then ([.errorCreatingRequest], none)
        else
          let url := server ++ e.reqB64
          if !e.postOk then ([.errorFetching url], none)
          else
            let datum : Datum :=
              { serial := hex032 cert.serialNumber
                names := cert.dnsNames
                ocspLatency := e.latency
                notBefore := cert.notBefore
                url := url
                thisUpdate := 0
                nextUpdate := 0
                ocspErr := none }
            let slow : List Diag :=
              if e.latency > nsPerSecond then
                [.slowResponse (e.latency.tdiv nsPerMillisecond) (natToHex cert.serialNumber) url]
              else []
            let names := joinComma cert.dnsNames
            -- the `if err != nil` of lines 165-169 re-tests the Post
            -- error already returned on at line 149, so it never fires
            if !e.readOk then (slow, some { datum with ocspErr := some (.readErr names url) })
            else match e.parsedResp with
            | none => (slow, some { datum with ocspErr := some (.parseErr names url) })
            | some r =>
              (slow, some { datum with nextUpdate := r.nextUpdate, thisUpdate := r.thisUpdate })

/-- The record stream produced by the goroutine for a list of entries,
each paired with the wall-clock time at which it is processed; records
appear on the channel in entry order. -/
def produceRecords (entries : List (Int × Entry)) : List Datum :=
  entries.filterMap (fun p => (processEntry p.1 p.2).2)

/-- All diagnostic lines printed by the goroutine, in order. -/
def produceDiags (entries : List (Int × Entry)) : List Diag :=
  (entries.map (fun p => (processEntry p.1 p.2).1)).flatten

/-! ### The aggregator: `processData` (lines 197-234) -/

/-- The loop state of `processData`: `latestIssue` and `totalLatency`
start at their Go zero values, `latencies` is `make(int64slice, 10000)`
— a slice of length 10000 whose elements are all zero (line 201) — and
`distinct` is the key set of the `map[string]bool` of line 202. -/
structure AggState where
  latestIssue : Int
  totalLatency : Int
  latencies : List Int
  distinct : Finset String
deriving DecidableEq

/-- The state before the first record arrives. -/
def initState : AggState :=
  { latestIssue := 0
    totalLatency := 0
    latencies := List.replicate 10000 0
    distinct := ∅ }

/-- The lines printed for one received record (lines 204-218), in
order: the verbose line, the error of the record if present, the
"badly out of date" check `begin.After(datum.nextUpdate)` and the 4-day
check `begin.Sub(datum.thisUpdate) > time.Hour*24*4`, both against the
`begin` captured once at line 198. -/
def recordDiags (verbose : Bool) (beginT : Int) (d : Datum) : List Diag :=
  (if verbose then [.verboseLine d.notBefore d.serial (joinComma d.names)] else [])
  ++ (match d.ocspErr with
      | some e => [.errLine e]
      | none => [])
  ++ (if beginT > d.nextUpdate then [.badlyOutOfDate d.serial d.thisUpdate] else [])
  ++ (if beginT - d.thisUpdate > fourDays then [.outOfDate d.serial d.thisUpdate d.url] else [])

/-- The state updates for one received record (lines 207-209 and
219-221). -/
def aggStep (st : AggState) (d : Datum) : AggState :=
  { latestIssue := if d.notBefore > st.latestIssue then d.notBefore else st.latestIssue
    totalLatency := st.totalLatency + d.ocspLatency
    latencies := st.latencies ++ [d.ocspLatency]
    distinct := insert d.serial st.distinct }

/-- The loop state after the whole record stream has been consumed. -/
def finalState (records : List Datum) : AggState :=
  records.foldl aggStep initState

/-- The figures printed by the summary lines 229-233 (latency figures in
nanoseconds; the program prints them divided by `time.Millisecond`). -/
structure Stats where
  count : Nat
  distinctCount : Nat
  timeSinceLatest : Int
  median : Int
  mean : Int
  ninetieth : Int
  maxLatency : Int
deriving DecidableEq, Repr

/-- Finalization (lines 223-228): sort the latency slice ascending and
read off median `latencies[len/2]`, mean `totalLatency/len`, 90th
percentile `latencies[len*9/10]` and maximum `latencies[len-1]`.
Indexing is modelled with `List.getD _ _ 0`; the accompanying theorems
show every index used is within bounds, so the default is never
consulted. -/
def finalize (beginT : Int) (st : AggState) : Stats :=
  let sorted := st.latencies.mergeSort
  let n := sorted.length
  { count := n
    distinctCount := st.distinct.card
    timeSinceLatest := beginT - st.latestIssue
    median := sorted.getD (n / 2) 0
    mean := st.totalLatency.tdiv (Int.ofNat n)
    ninetieth := sorted.getD (n * 9 / 10) 0
    maxLatency := sorted.getD (n - 1) 0 }

/-- Model of `processData` (lines 197-234) as a function of the verbose flag, the
`begin` time captured once at entry (line 198), and the record stream in
arrival order: the per-record lines printed, and the final summary. -/
def processData (verbose : Bool) (beginT : Int) (records : List Datum) :
    List Diag × Stats :=
  ((records.map (recordDiags verbose beginT)).flatten,
   finalize beginT (finalState records))

/-! ### Eligibility predicates -/

/-- The four eligibility rules exactly as the spec words them:
the entry parses as a well-formed certificate, the issuer common name
matches the trusted-issuer string, the certificate is not expired at
processing time, and it carries at least one OCSP server URL. -/
def passesFourRules (now : Int) (e : Entry) : Bool :=
  match e.cert with
  | none => false
  | some c =>
    !e.entErr && (c.issuerCN == trustedIssuer) && !(decide (now > c.notAfter))
      && !c.ocspServer.isEmpty

/-- The exact condition under which the code emits a record for an
entry: the four rules, plus success of the issuer-chain parse, of
`ocsp.CreateRequest`, and of `http.Post`. -/
def fullyEligible (now : Int) (e : Entry) : Bool :=
  match e.cert with
  | none => false
  | some c =>
    !e.entErr && (c.issuerCN == trustedIssuer) && !(decide (now > c.notAfter))
      && e.extraCertsParse.headD true && !c.ocspServer.isEmpty
      && e.createReqOk && e.postOk

/-! ### Concrete inputs for counterexamples and witnesses -/

/-- A well-formed, unexpired certificate from the trusted issuer that
carries an OCSP server URL. -/
def certEligible : Cert :=
  { issuerCN := trustedIssuer
    notBefore := 5
    notAfter := 100
    serialNumber := 3
    dnsNames := ["example.com"]
    ocspServer := ["http://ocsp.example/"] }

/-- An entry for `certEligible` whose HTTP POST fails. -/
def entryPostFail : Entry :=
  { entErr := false
    cert := some certEligible
    extraCertsParse := [true]
    createReqOk := true
    reqB64 := "QUJD"
    postOk := false
    readOk := true
    parsedResp := some { thisUpdate := 50, nextUpdate := 90 }
    latency := 7 }

/-- A record with a 10 ns OCSP latency, used to surround the 10000
zero filler samples with an equal number of larger samples so that the
two middle elements of the sorted sequence differ. -/
def dTen : Datum :=
  { serial := "s1"
    notBefore := 0
    nextUpdate := 0
    thisUpdate := 0
    ocspLatency := 10
    ocspErr := none
    names := []
    url := "u" }

/-- A well-formed, unexpired certificate with no OCSP server URL whose
issuer is neither the trusted issuer nor the merge-delay intermediate. -/
def certNoOcsp : Cert :=
  { issuerCN := "Example CA"
    notBefore := 0
    notAfter := 100
    serialNumber := 2
    dnsNames := []
    ocspServer := [] }

/-- An entry for `certNoOcsp` with every external call succeeding. -/
def entryNoOcsp : Entry :=
  { entErr := false
    cert := some certNoOcsp
    extraCertsParse := []
    createReqOk := true
    reqB64 := ""
    postOk := true
    readOk := true
    parsedResp := none
    latency := 0 }

/-- Variant of `certNoOcsp` with the trusted issuer instead. -/
def certTrustedNoOcsp : Cert :=
  { issuerCN := trustedIssuer
    notBefore := 0
    notAfter := 100
    serialNumber := 4
    dnsNames := []
    ocspServer := [] }

/-- An entry for `certTrustedNoOcsp`. -/
def entryTrustedNoOcsp : Entry :=
  { entErr := false
    cert := some certTrustedNoOcsp
    extraCertsParse := []
    createReqOk := true
    reqB64 := ""
    postOk := true
    readOk := true
    parsedResp := none
    latency := 0 }

/-- An entry for `certEligible` whose body read fails after a
successful POST. -/
def entryReadFail : Entry :=
  { entErr := false
    cert := some certEligible
    extraCertsParse := [true]
    createReqOk := true
    reqB64 := "QUJD"
    postOk := true
    readOk := false
    parsedResp := some { thisUpdate := 50, nextUpdate := 90 }
    latency := 7 }

/-- The record the producer emits for `entryReadFail`. -/
def dRead : Datum :=
  { serial := hex032 3
    notBefore := 5
    nextUpdate := 0
    thisUpdate := 0
    ocspLatency := 7
    ocspErr := some (.readErr "example.com" "http://ocsp.example/QUJD")
    names := ["example.com"]
    url := "http://ocsp.example/QUJD" }

/-- An entry for `certEligible` with a 9-second round trip. -/
def entrySlow : Entry :=
  { entErr := false
    cert := some certEligible
    extraCertsParse := [true]
    createReqOk := true
    reqB64 := "QUJD"
    postOk := true
    readOk := true
    parsedResp := some { thisUpdate := 50, nextUpdate := 90 }
    latency := 9000000000 }

/-- The record the producer emits for `entrySlow`. -/
def dSlow : Datum :=
  { serial := hex032 3
    notBefore := 5
    nextUpdate := 90
    thisUpdate := 50
    ocspLatency := 9000000000
    ocspErr := none
    names := ["example.com"]
    url := "http://ocsp.example/QUJD" }

/-! ### Helper lemmas -/

lemma trusted_ne_mergeDelay : trustedIssuer ≠ mergeDelayIssuer := by decide

lemma processEntry_isSome (now : Int) (e : Entry) :
    ((processEntry now e).2).isSome = fullyEligible now e := by
  obtain ⟨entErr, cert, extra, createReqOk, reqB64, postOk, readOk, parsedResp, latency⟩ := e
  unfold processEntry fullyEligible
  cases entErr <;> cases cert <;> simp
  rename_i c
  by_cases h1 : c.issuerCN = trustedIssuer <;> simp [h1]
  by_cases h2 : now > c.notAfter <;> simp [h2]
  cases hiss : extra.head?.getD true with
  | false => simp [hiss]
  | true =>
    cases hs : c.ocspServer with
    | nil => simp [hiss, trusted_ne_mergeDelay]
    | cons s rest =>
      cases createReqOk <;> cases postOk <;> cases readOk <;> cases parsedResp <;>
        simp [hiss]

/-- Characterization of every record the producer emits: the entry
fields it forces, the shape of the record, and the accompanying
diagnostics. -/
lemma processEntry_record_shape (now : Int) (e : Entry) (ds : List Diag) (d : Datum)
    (h : processEntry now e = (ds, some d)) :
    ∃ c server rest, e.cert = some c ∧ c.ocspServer = server :: rest
    ∧ e.entErr = false ∧ c.issuerCN = trustedIssuer ∧ ¬ now > c.notAfter
    ∧ e.extraCertsParse.headD true = true ∧ e.createReqOk = true ∧ e.postOk = true
    ∧ d.ocspLatency = e.latency
    ∧ d.serial = hex032 c.serialNumber
    ∧ d.names = c.dnsNames
    ∧ d.url = server ++ e.reqB64
    ∧ d.notBefore = c.notBefore
    ∧ ds = (if e.latency > nsPerSecond then
        [Diag.slowResponse (e.latency.tdiv nsPerMillisecond) (natToHex c.serialNumber)
          (server ++ e.reqB64)]
      else [])
    ∧ ((d.ocspErr = some (.readErr (joinComma c.dnsNames) (server ++ e.reqB64))
          ∧ d.thisUpdate = 0 ∧ d.nextUpdate = 0 ∧ e.readOk = false)
       ∨ (d.ocspErr = some (.parseErr (joinComma c.dnsNames) (server ++ e.reqB64))
          ∧ d.thisUpdate = 0 ∧ d.nextUpdate = 0 ∧ e.readOk = true ∧ e.parsedResp = none)
       ∨ (d.ocspErr = none
          ∧ ∃ r, e.parsedResp = some r ∧ e.readOk = true
            ∧ d.thisUpdate = r.thisUpdate ∧ d.nextUpdate = r.nextUpdate)) := by
  obtain ⟨entErr, cert, extra, createReqOk, reqB64, postOk, readOk, parsedResp, latency⟩ := e
  unfold processEntry at h
  cases entErr with
  | true => simp at h
  | false =>
  cases cert with
  | none => simp at h
  | some c =>
  obtain ⟨cn, nb, na, sn, dns, ocspS⟩ := c
  simp only [Bool.false_eq_true, if_false] at h
  by_cases h1 : cn = trustedIssuer
  case neg => rw [if_pos (by simpa using h1)] at h; simp at h
  rw [if_neg (by simpa using h1)] at h
  by_cases h2 : now > na
  case pos => rw [if_pos h2] at h; simp at h
  rw [if_neg h2] at h
  by_cases hiss : extra.headD true = true
  case neg =>
    rw [Bool.not_eq_true] at hiss
    rw [hiss] at h; simp at h
  rw [hiss] at h
  simp only [Bool.not_true, Bool.false_eq_true, if_false] at h
  cases ocspS with
  | nil =>
    rw [if_pos (by simpa using h1 ▸ trusted_ne_mergeDelay)] at h
    simp at h
  | cons server rest =>
  cases createReqOk with
  | false => simp at h
  | true =>
  cases postOk with
  | false => simp at h
  | true =>
  simp only [Bool.not_true, Bool.false_eq_true, if_false] at h
  refine ⟨⟨cn, nb, na, sn, dns, server :: rest⟩, server, rest, rfl, rfl, rfl, h1, h2,
    hiss, ?_⟩
  cases readOk with
  | false =>
    simp only [Bool.not_false, if_true] at h
    obtain ⟨hds, hd⟩ := Prod.ext_iff.mp h
    simp only at hds hd
    obtain rfl := Option.some_inj.mp hd
    obtain rfl := hds
    simp
  | true =>
  simp only [Bool.not_true, Bool.false_eq_true, if_false] at h
  cases parsedResp with
  | none =>
    obtain ⟨hds, hd⟩ := Prod.ext_iff.mp h
    simp only at hds hd
    obtain rfl := Option.some_inj.mp hd
    obtain rfl := hds
    simp
  | some r =>
    obtain ⟨hds, hd⟩ := Prod.ext_iff.mp h
    simp only at hds hd
    obtain rfl := Option.some_inj.mp hd
    obtain rfl := hds
    simp

lemma foldl_aggStep_latencies (records : List Datum) (st : AggState) :
    (records.foldl aggStep st).latencies = st.latencies ++ records.map Datum.ocspLatency := by
  induction records generalizing st with
  | nil => simp
  | cons d ds ih => simp [ih, aggStep]

lemma finalState_latencies (records : List Datum) :
    (finalState records).latencies
      = List.replicate 10000 0 ++ records.map Datum.ocspLatency :=
  foldl_aggStep_latencies records initState

lemma foldl_aggStep_totalLatency (records : List Datum) (st : AggState) :
    (records.foldl aggStep st).totalLatency
      = st.totalLatency + (records.map Datum.ocspLatency).sum := by
  induction records generalizing st with
  | nil => simp
  | cons d ds ih => simp [ih, aggStep]; ring

lemma initState_totalLatency : initState.totalLatency = 0 := rfl

lemma initState_distinct : initState.distinct = ∅ := rfl

lemma finalState_totalLatency (records : List Datum) :
    (finalState records).totalLatency = (records.map Datum.ocspLatency).sum := by
  rw [finalState, foldl_aggStep_totalLatency, initState_totalLatency, zero_add]

lemma foldl_aggStep_distinct (records : List Datum) (st : AggState) :
    (records.foldl aggStep st).distinct
      = st.distinct ∪ (records.map Datum.serial).toFinset := by
  induction records generalizing st with
  | nil => simp
  | cons d ds ih =>
    simp [ih, aggStep, Finset.insert_union, Finset.union_insert]

lemma finalState_distinct (records : List Datum) :
    (finalState records).distinct = (records.map Datum.serial).toFinset := by
  rw [finalState, foldl_aggStep_distinct, initState_distinct, Finset.empty_union]

/-! Projection lemmas for `finalize`, stated over an abstract state so
that the 10000-element literal never has to be evaluated. -/

lemma finalize_count (b : Int) (st : AggState) :
    (finalize b st).count = st.latencies.length := by
  simp [finalize, List.length_mergeSort]

lemma finalize_distinctCount (b : Int) (st : AggState) :
    (finalize b st).distinctCount = st.distinct.card := rfl

lemma finalize_timeSinceLatest (b : Int) (st : AggState) :
    (finalize b st).timeSinceLatest = b - st.latestIssue := rfl

lemma finalize_median (b : Int) (st : AggState) :
    (finalize b st).median = st.latencies.mergeSort.getD (st.latencies.length / 2) 0 := by
  simp [finalize, List.length_mergeSort]

lemma finalize_mean (b : Int) (st : AggState) :
    (finalize b st).mean = st.totalLatency.tdiv (Int.ofNat st.latencies.length) := by
  simp [finalize, List.length_mergeSort]

lemma finalize_ninetieth (b : Int) (st : AggState) :
    (finalize b st).ninetieth
      = st.latencies.mergeSort.getD (st.latencies.length * 9 / 10) 0 := by
  simp [finalize, List.length_mergeSort]

lemma finalize_maxLatency (b : Int) (st : AggState) :
    (finalize b st).maxLatency
      = st.latencies.mergeSort.getD (st.latencies.length - 1) 0 := by
  simp [finalize, List.length_mergeSort]

lemma finalLat_length (records : List Datum) :
    (finalState records).latencies.length = records.length + 10000 := by
  rw [finalState_latencies, List.length_append, List.length_replicate, List.length_map]
  omega

lemma stats_count (v : Bool) (b : Int) (records : List Datum) :
    (processData v b records).2.count = records.length + 10000 := by
  rw [processData, finalize_count, finalLat_length]

lemma stats_distinctCount (v : Bool) (b : Int) (records : List Datum) :
    (processData v b records).2.distinctCount
      = (records.map Datum.serial).toFinset.card := by
  rw [processData, finalize_distinctCount, finalState_distinct]

lemma stats_mean (v : Bool) (b : Int) (records : List Datum) :
    (processData v b records).2.mean
      = ((records.map Datum.ocspLatency).sum).tdiv (Int.ofNat (records.length + 10000)) := by
  rw [processData, finalize_mean, finalState_totalLatency, finalLat_length]

lemma mergeSort_replicate_zero :
    (List.replicate 10000 (0 : Int)).mergeSort = List.replicate 10000 0 := by
  apply List.mergeSort_of_sorted
  rw [List.pairwise_replicate]
  exact Or.inr (by decide)

lemma getD_replicate_zero (i : Nat) :
    (List.replicate 10000 (0 : Int)).getD i 0 = 0 := by
  rw [List.getD_eq_getElem?_getD, List.getElem?_getD_replicate_default_eq]

/-- On an empty record stream, the 10000 preallocated zero samples make
every summary figure well defined: count 10000, all latency figures 0. -/
lemma empty_stream_stats (v : Bool) (b : Int) :
    (processData v b []).1 = []
    ∧ (processData v b []).2.count = 10000
    ∧ (processData v b []).2.distinctCount = 0
    ∧ (processData v b []).2.timeSinceLatest = b
    ∧ (processData v b []).2.median = 0
    ∧ (processData v b []).2.mean = 0
    ∧ (processData v b []).2.ninetieth = 0
    ∧ (processData v b []).2.maxLatency = 0 := by
  have hlat : (finalState []).latencies = List.replicate 10000 (0 : Int) := rfl
  refine ⟨rfl, by simpa using stats_count v b [], by simpa using stats_distinctCount v b [],
    ?_, ?_, by simpa using stats_mean v b [], ?_, ?_⟩
  · rw [processData, finalize_timeSinceLatest]
    show b - (0 : Int) = b
    exact sub_zero b
  · rw [processData, finalize_median, hlat, mergeSort_replicate_zero, getD_replicate_zero]
  · rw [processData, finalize_ninetieth, hlat, mergeSort_replicate_zero, getD_replicate_zero]
  · rw [processData, finalize_maxLatency, hlat, mergeSort_replicate_zero, getD_replicate_zero]

/-! ### Claim C1 -/

/-- C1 counterexample: the entry `entryPostFail` passes all four
eligibility rules (well-formed, trusted issuer, unexpired, has an OCSP
server URL), yet because its HTTP POST fails the producer emits no
record at all — only a diagnostic line — contradicting the claim that
on any failure, network errors included, a record with the error field
populated is still emitted. -/
theorem c1_counterexample :
    passesFourRules 0 entryPostFail = true
    ∧ produceRecords [(0, entryPostFail)] = []
    ∧ produceDiags [(0, entryPostFail)]
        = [Diag.errorFetching ("http://ocsp.example/" ++ "QUJD")] :=
  ⟨by decide, by decide, by decide⟩

/-- C1 (amended): for every entry stream, the number of emitted records
equals the number of entries that pass the four eligibility rules AND
whose issuer-chain parse, OCSP request build, and HTTP POST all
succeed.  Body-read and response-parse failures still produce exactly
one record each, but request-build and network (POST) failures produce
none. -/
theorem c1_record_count_full_eligibility (entries : List (Int × Entry)) :
    (produceRecords entries).length
      = (entries.filter (fun p => fullyEligible p.1 p.2)).length := by
  induction entries with
  | nil => rfl
  | cons p ps ih =>
    have hIs := processEntry_isSome p.1 p.2
    unfold produceRecords at ih ⊢
    rw [List.filterMap_cons, List.filter_cons]
    cases hp : (processEntry p.1 p.2).2 with
    | none =>
      rw [hp] at hIs
      simp only [Option.isSome_none] at hIs
      simp [← hIs, ih]
    | some d =>
      rw [hp] at hIs
      simp only [Option.isSome_some] at hIs
      simp [← hIs, ih]

/-! ### Claim C2 -/

/-- C2: in every run the latency sample sequence starts with 10000
zero-valued samples, so the reported count is the number of received
records plus 10000, and median, mean, 90th percentile, and maximum are
all computed over the observed latencies together with those 10000
zeros. -/
theorem c2_ten_thousand_zero_samples (v : Bool) (b : Int) (records : List Datum) :
    (finalState records).latencies
        = List.replicate 10000 0 ++ records.map Datum.ocspLatency
    ∧ (processData v b records).2.count = records.length + 10000
    ∧ (processData v b records).2.median
        = (finalState records).latencies.mergeSort.getD ((records.length + 10000) / 2) 0
    ∧ (processData v b records).2.ninetieth
        = (finalState records).latencies.mergeSort.getD
            ((records.length + 10000) * 9 / 10) 0
    ∧ (processData v b records).2.maxLatency
        = (finalState records).latencies.mergeSort.getD ((records.length + 10000) - 1) 0
    ∧ (processData v b records).2.mean
        = ((records.map Datum.ocspLatency).sum).tdiv
            (Int.ofNat (records.length + 10000)) := by
  refine ⟨finalState_latencies records, stats_count v b records, ?_, ?_, ?_,
    stats_mean v b records⟩
  · rw [processData, finalize_median, finalLat_length]
  · rw [processData, finalize_ninetieth, finalLat_length]
  · rw [processData, finalize_maxLatency, finalLat_length]

/-! ### Claim C3 -/

/-- C3 counterexample: on the empty record stream the finalization does
NOT fault: the sample list still has 10000 (zero) elements, every index
used (len/2, len*9/10, len-1) is strictly within bounds, the divisor is
10000 (not zero), and the summary is count 10000 with all latency
figures 0. -/
theorem c3_counterexample :
    (finalState ([] : List Datum)).latencies.mergeSort.length = 10000
    ∧ 10000 / 2 < 10000 ∧ 10000 * 9 / 10 < 10000 ∧ 10000 - 1 < 10000
    ∧ (processData false 0 []).2.count = 10000
    ∧ (processData false 0 []).2.median = 0
    ∧ (processData false 0 []).2.mean = 0
    ∧ (processData false 0 []).2.ninetieth = 0
    ∧ (processData false 0 []).2.maxLatency = 0 := by
  obtain ⟨-, h1, -, -, h2, h3, h4, h5⟩ := empty_stream_stats false 0
  refine ⟨?_, by decide, by decide, by decide, h1, h2, h3, h4, h5⟩
  have hlat : (finalState ([] : List Datum)).latencies = List.replicate 10000 0 := rfl
  rw [List.length_mergeSort, hlat, List.length_replicate]

/-- C3 (amended): when zero records are observed the aggregator does
not fault and performs no division by zero: the 10000 preallocated zero
samples keep every percentile index in bounds, and the run reports
count 10000, distinct count 0, and zero median, mean, 90th percentile,
and maximum — rather than a NoData result. -/
theorem c3_empty_stream_defined (v : Bool) (b : Int) :
    (processData v b []).1 = []
    ∧ (processData v b []).2.count = 10000
    ∧ (processData v b []).2.distinctCount = 0
    ∧ (processData v b []).2.timeSinceLatest = b
    ∧ (processData v b []).2.median = 0
    ∧ (processData v b []).2.mean = 0
    ∧ (processData v b []).2.ninetieth = 0
    ∧ (processData v b []).2.maxLatency = 0
    ∧ (finalState ([] : List Datum)).latencies.mergeSort.length = 10000 := by
  obtain ⟨h0, h1, h2, h3, h4, h5, h6, h7⟩ := empty_stream_stats v b
  refine ⟨h0, h1, h2, h3, h4, h5, h6, h7, ?_⟩
  have hlat : (finalState ([] : List Datum)).latencies = List.replicate 10000 0 := rfl
  rw [List.length_mergeSort, hlat, List.length_replicate]

/-! ### Claim C4 -/


lemma sorted_zero_ten :
    List.Sorted (· ≤ ·) (List.replicate 10000 (0 : Int) ++ List.replicate 10000 10) := by
  apply List.pairwise_append.mpr
  refine ⟨?_, ?_, ?_⟩
  · rw [List.pairwise_replicate]
    exact Or.inr le_rfl
  · rw [List.pairwise_replicate]
    exact Or.inr le_rfl
  · intro x hx y hy
    rw [List.eq_of_mem_replicate hx, List.eq_of_mem_replicate hy]
    norm_num

lemma mergeSort_zero_ten :
    (List.replicate 10000 (0 : Int) ++ List.replicate 10000 10).mergeSort
      = List.replicate 10000 0 ++ List.replicate 10000 10 :=
  List.mergeSort_eq_self sorted_zero_ten

lemma finalLat_dTen :
    (finalState (List.replicate 10000 dTen)).latencies
      = List.replicate 10000 (0 : Int) ++ List.replicate 10000 10 := by
  rw [finalState_latencies, List.map_replicate]
  rfl

lemma finalLat_dTen_length :
    (finalState (List.replicate 10000 dTen)).latencies.length = 20000 := by
  rw [finalLat_dTen, List.length_append, List.length_replicate, List.length_replicate]

lemma getD_replicate_ten (i : Nat) (h : i < 10000) :
    (List.replicate 10000 (10 : Int)).getD i 0 = 10 := by
  rw [List.getD_eq_getElem _ _ (by rw [List.length_replicate]; exact h),
    List.getElem_replicate]

/-- C4 counterexample: with 10000 received records of latency 10 ns the
sorted sample sequence is 10000 zeros followed by 10000 tens, an even
count of 20000.  The median `latencies[len/2]` computed by the program is the
upper-middle element 10, while the element at the lower-middle index
`len/2 - 1` is 0 — so the claim that the median uses the lower-middle
index for even counts is false. -/
theorem c4_counterexample :
    (processData false 0 (List.replicate 10000 dTen)).2.count = 20000
    ∧ 20000 % 2 = 0
    ∧ (processData false 0 (List.replicate 10000 dTen)).2.median = 10
    ∧ (finalState (List.replicate 10000 dTen)).latencies.mergeSort.getD
        (20000 / 2 - 1) 0 = 0 := by
  have hidx : (20000 : Nat) / 2 = 10000 := by norm_num
  have hlen0 : (List.replicate 10000 (0 : Int)).length ≤ 10000 := by
    rw [List.length_replicate]
  refine ⟨?_, by norm_num, ?_, ?_⟩
  · rw [stats_count, List.length_replicate]
  · rw [processData, finalize_median, finalLat_dTen_length, finalLat_dTen,
      mergeSort_zero_ten, hidx,
      List.getD_append_right _ _ _ _ hlen0, List.length_replicate, Nat.sub_self,
      getD_replicate_ten 0 (by norm_num)]
  · have hidx' : (20000 : Nat) / 2 - 1 = 9999 := by norm_num
    rw [hidx', finalLat_dTen, mergeSort_zero_ten,
      List.getD_append _ _ _ _ (by rw [List.length_replicate]; norm_num),
      getD_replicate_zero]

/-- C4 (amended): after the stream closes the aggregator sorts the
sample sequence ascending (the sorted sequence is an ascending
permutation of the samples) and computes median as the element at index
`len / 2` — the UPPER-middle element for even counts, not the
lower-middle one — mean as the running latency sum divided by the
sample count with truncating integer division, 90th percentile as the
element at index `len * 9 / 10`, and maximum as the last element. -/
theorem c4_finalization_formulas (v : Bool) (b : Int) (records : List Datum) :
    List.Sorted (· ≤ ·) ((finalState records).latencies.mergeSort)
    ∧ ((finalState records).latencies.mergeSort).Perm ((finalState records).latencies)
    ∧ (processData v b records).2.median
        = (finalState records).latencies.mergeSort.getD ((records.length + 10000) / 2) 0
    ∧ (processData v b records).2.mean
        = ((records.map Datum.ocspLatency).sum).tdiv (Int.ofNat (records.length + 10000))
    ∧ (processData v b records).2.ninetieth
        = (finalState records).latencies.mergeSort.getD
            ((records.length + 10000) * 9 / 10) 0
    ∧ (processData v b records).2.maxLatency
        = (finalState records).latencies.mergeSort.getD ((records.length + 10000) - 1) 0 := by
  refine ⟨List.sorted_mergeSort' _, List.mergeSort_perm _ _, ?_,
    stats_mean v b records, ?_, ?_⟩
  · rw [processData, finalize_median, finalLat_length]
  · rw [processData, finalize_ninetieth, finalLat_length]
  · rw [processData, finalize_maxLatency, finalLat_length]

/-! ### Claim C5 -/





/-- C5 counterexample: a well-formed, unexpired certificate with no
OCSP server URL and issuer "Example CA" — a string different from
"Merge Delay Intermediate 1" — produces zero records AND zero
diagnostic lines, because the trusted-issuer filter at line 119 drops
it before the no-OCSP-server check is ever reached; the claim predicts
exactly one diagnostic line for it. -/
theorem c5_counterexample :
    certNoOcsp.ocspServer = []
    ∧ certNoOcsp.issuerCN ≠ mergeDelayIssuer
    ∧ processEntry 0 entryNoOcsp = ([], none) :=
  ⟨rfl, by decide, by decide⟩

/-- C5 (amended): a well-formed, unexpired certificate with no OCSP
server URL (and a parseable issuer chain) produces zero records always;
it produces exactly one "No OCSP Server" diagnostic line iff its issuer
common name is the `trustedIssuer` string — any
other issuer, "Merge Delay Intermediate 1" included, is dropped
silently by the trusted-issuer filter, and the merge-delay exemption
test at line 135 is unreachable dead code. -/
theorem c5_no_ocsp_diagnostic (now : Int) (e : Entry) (c : Cert)
    (hc : e.cert = some c) (he : e.entErr = false)
    (hiss : e.extraCertsParse.headD true = true)
    (hexp : ¬ now > c.notAfter) (hocsp : c.ocspServer = []) :
    processEntry now e =
      (if c.issuerCN = trustedIssuer then ([Diag.noOCSPServer c.issuerCN], none)
       else ([], none)) := by
  obtain ⟨entErr, cert, extra, crq, rq, po, ro, pr, lat⟩ := e
  simp only at hc he hiss
  subst hc
  subst he
  obtain ⟨cn, nb, na, sn, dns, ocspS⟩ := c
  simp only at hexp hocsp ⊢
  subst hocsp
  unfold processEntry
  simp only [Bool.false_eq_true, if_false]
  by_cases h1 : cn = trustedIssuer
  · rw [if_neg (by simpa using h1), if_neg hexp, hiss]
    simp only [Bool.not_true, Bool.false_eq_true, if_false]
    rw [if_pos (by simpa using (h1 ▸ trusted_ne_mergeDelay : cn ≠ mergeDelayIssuer)),
      if_pos h1]
  · rw [if_pos (by simpa using h1), if_neg h1]

/-- C5 witness: the amended theorem applied to the trusted-issuer
variant, which does produce the single diagnostic line. -/
theorem c5_witness :
    processEntry 0 entryTrustedNoOcsp
      = (if certTrustedNoOcsp.issuerCN = trustedIssuer
         then ([Diag.noOCSPServer certTrustedNoOcsp.issuerCN], none)
         else ([], none)) :=
  c5_no_ocsp_diagnostic 0 entryTrustedNoOcsp certTrustedNoOcsp rfl rfl rfl
    (by decide) rfl

/-! ### Claim C6 -/



/-- C6: every emitted record — failed ones included — carries the
measured round-trip latency, and the aggregator folds that latency into
the sample sequence and the running sum identically for every record,
with no dependence on the error field. -/
theorem c6_latency_on_failure :
    (∀ now e ds d, processEntry now e = (ds, some d) → d.ocspLatency = e.latency)
    ∧ ∀ st d, (aggStep st d).latencies = st.latencies ++ [d.ocspLatency]
        ∧ (aggStep st d).totalLatency = st.totalLatency + d.ocspLatency := by
  constructor
  · intro now e ds d h
    obtain ⟨c, server, rest, -, -, -, -, -, -, -, -, hlat, -⟩ :=
      processEntry_record_shape now e ds d h
    exact hlat
  · intro st d
    exact ⟨rfl, rfl⟩

/-- C6 witness: the body-read-failure record of `entryReadFail` carries
the measured 7 ns latency. -/
theorem c6_witness : dRead.ocspLatency = entryReadFail.latency :=
  c6_latency_on_failure.1 0 entryReadFail [] dRead (by decide)

/-! ### Claim C7 -/

lemma badOOD_mem_recordDiags (v : Bool) (b : Int) (d : Datum) :
    Diag.badlyOutOfDate d.serial d.thisUpdate ∈ recordDiags v b d
      ↔ b > d.nextUpdate := by
  unfold recordDiags
  cases he : d.ocspErr <;> cases v <;>
    by_cases h1 : b > d.nextUpdate <;> by_cases h2 : b - d.thisUpdate > fourDays <;>
    simp [h1, h2]

lemma stale_mem_recordDiags (v : Bool) (b : Int) (d : Datum) :
    Diag.outOfDate d.serial d.thisUpdate d.url ∈ recordDiags v b d
      ↔ b - d.thisUpdate > fourDays := by
  unfold recordDiags
  cases he : d.ocspErr <;> cases v <;>
    by_cases h1 : b > d.nextUpdate <;> by_cases h2 : b - d.thisUpdate > fourDays <;>
    simp [h1, h2]

lemma errLine_mem_recordDiags (v : Bool) (b : Int) (d : Datum) (er : OcspErr)
    (he : d.ocspErr = some er) : Diag.errLine er ∈ recordDiags v b d := by
  unfold recordDiags
  rw [he]
  cases v <;>
    by_cases h1 : b > d.nextUpdate <;> by_cases h2 : b - d.thisUpdate > fourDays <;>
    simp [h1, h2]

/-- C7: the aggregator uses the single time captured at aggregation
start for every record: the per-record diagnostics of the whole run are
the per-record diagnostics with that one time, a record gets the
"badly out of date" warning iff its nextUpdate is before that time, and
gets the stale-response warning — which carries the diagnostic
URL — iff that time minus its thisUpdate exceeds 4 days. -/
theorem c7_staleness_single_reference (v : Bool) (b : Int) (d : Datum)
    (records : List Datum) :
    (Diag.badlyOutOfDate d.serial d.thisUpdate ∈ recordDiags v b d ↔ b > d.nextUpdate)
    ∧ (Diag.outOfDate d.serial d.thisUpdate d.url ∈ recordDiags v b d
        ↔ b - d.thisUpdate > fourDays)
    ∧ (processData v b records).1 = (records.map (recordDiags v b)).flatten :=
  ⟨badOOD_mem_recordDiags v b d, stale_mem_recordDiags v b d, rfl⟩

/-! ### Claim C8 -/



lemma processEntry_slow_isSome (now : Int) (e : Entry) (ms : Int) (s u : String)
    (h : Diag.slowResponse ms s u ∈ (processEntry now e).1) :
    ((processEntry now e).2).isSome = true := by
  obtain ⟨entErr, cert, extra, crq, rq, po, ro, pr, lat⟩ := e
  unfold processEntry at h ⊢
  cases entErr with
  | true => simp at h
  | false =>
  cases cert with
  | none => simp at h
  | some c =>
  obtain ⟨cn, nb, na, sn, dns, ocspS⟩ := c
  simp only [Bool.false_eq_true, if_false] at h ⊢
  by_cases h1 : cn = trustedIssuer
  case neg => rw [if_pos (by simpa using h1)] at h; simp at h
  rw [if_neg (by simpa using h1)] at h ⊢
  by_cases h2 : now > na
  case pos => rw [if_pos h2] at h; simp at h
  rw [if_neg h2] at h ⊢
  by_cases hiss : extra.headD true = true
  case neg =>
    rw [Bool.not_eq_true] at hiss
    rw [hiss] at h; simp at h
  rw [hiss] at h ⊢
  simp only [Bool.not_true, Bool.false_eq_true, if_false] at h ⊢
  cases ocspS with
  | nil =>
    by_cases hm : cn ≠ mergeDelayIssuer
    · rw [if_pos hm] at h; simp at h
    · rw [if_neg hm] at h; simp at h
  | cons server rest =>
  cases crq with
  | false => simp at h
  | true =>
  cases po with
  | false => simp at h
  | true =>
  simp only [Bool.not_true, Bool.false_eq_true, if_false]
  cases ro with
  | false => simp
  | true =>
  cases pr <;> simp

/-- C8: a record-producing entry is accompanied by a slow-response
warning iff its measured latency exceeds one second (1000 ms), and a
slow-response warning is only ever printed on paths that still emit the
record — the warning never suppresses the record. -/
theorem c8_slow_response_warning :
    (∀ now e ds d, processEntry now e = (ds, some d) →
      ((∃ ms s u, Diag.slowResponse ms s u ∈ ds) ↔ d.ocspLatency > nsPerSecond))
    ∧ ∀ now e ms s u, Diag.slowResponse ms s u ∈ (processEntry now e).1 →
        ((processEntry now e).2).isSome = true := by
  constructor
  · intro now e ds d h
    obtain ⟨c, server, rest, -, -, -, -, -, -, -, -, hlat, -, -, -, -, hds, -⟩ :=
      processEntry_record_shape now e ds d h
    rw [hds, hlat]
    by_cases hl : e.latency > nsPerSecond
    · simp [hl]
    · simp [hl]
  · intro now e ms s u h
    exact processEntry_slow_isSome now e ms s u h

/-- C8 witness: the 9-second entry `entrySlow` is emitted with a
slow-response warning, and its latency indeed exceeds one second. -/
theorem c8_witness : dSlow.ocspLatency > nsPerSecond :=
  (c8_slow_response_warning.1 0 entrySlow
      [Diag.slowResponse 9000 (natToHex 3) "http://ocsp.example/QUJD"] dSlow
      (by decide)).mp
    ⟨9000, natToHex 3, "http://ocsp.example/QUJD", by decide⟩

/-! ### Claim C9 -/

lemma toFinset_card_eq_length_iff (l : List String) :
    l.toFinset.card = l.length ↔ l.Nodup := by
  constructor
  · intro h
    rw [List.card_toFinset] at h
    have heq := (List.dedup_sublist l).eq_of_length h
    rw [← heq]
    exact l.nodup_dedup
  · exact List.toFinset_card_of_nodup

/-- C9 counterexample: a stream of one record with a unique serial has
distinct count 1 but reported count 10001 — so the claimed equivalence
"distinct equals reported count iff no serial repeats" is false: no
serial repeats, yet the two counts differ (the reported count includes
the 10000 zero filler samples). -/
theorem c9_counterexample :
    ([dTen].map Datum.serial).Nodup
    ∧ (processData false 0 [dTen]).2.distinctCount = 1
    ∧ (processData false 0 [dTen]).2.count = 10001
    ∧ (processData false 0 [dTen]).2.distinctCount
        ≠ (processData false 0 [dTen]).2.count := by
  refine ⟨by decide, ?_, ?_, ?_⟩
  · rw [stats_distinctCount]
    decide
  · rw [stats_count]
    norm_num
  · rw [stats_distinctCount, stats_count]
    decide

/-- C9 (amended): the distinct-serial count is always at most the
reported total count, but the two are NEVER equal — the reported count
is the number of received records plus the 10000 filler samples; the
distinct count instead equals the number of received records iff no
serialHex value repeats among them. -/
theorem c9_distinct_vs_count (v : Bool) (b : Int) (records : List Datum) :
    (processData v b records).2.distinctCount ≤ (processData v b records).2.count
    ∧ (processData v b records).2.distinctCount ≠ (processData v b records).2.count
    ∧ ((processData v b records).2.distinctCount = records.length
        ↔ (records.map Datum.serial).Nodup) := by
  rw [stats_distinctCount, stats_count]
  have hle : (records.map Datum.serial).toFinset.card ≤ records.length := by
    have h := List.toFinset_card_le (records.map Datum.serial)
    rwa [List.length_map] at h
  refine ⟨by omega, by omega, ?_⟩
  rw [← List.length_map records Datum.serial]
  exact toFinset_card_eq_length_iff _

/-! ### Claim C10 -/

/-- C10: every emitted record with a populated error field carries
zero-valued thisUpdate and nextUpdate timestamps (the Go zero
`time.Time`), so whenever the aggregation-start time is more than four
days after the zero time — true of any actual wall clock — the
aggregator prints both the "badly out of date" warning and the 4-day
stale-response warning for that record, in addition to its error
line. -/
theorem c10_failed_records_warnings (now : Int) (e : Entry) (ds : List Diag)
    (d : Datum) (v : Bool) (b : Int)
    (h : processEntry now e = (ds, some d)) (herr : d.ocspErr.isSome = true)
    (hb : b > fourDays) :
    d.thisUpdate = 0 ∧ d.nextUpdate = 0
    ∧ Diag.badlyOutOfDate d.serial d.thisUpdate ∈ recordDiags v b d
    ∧ Diag.outOfDate d.serial d.thisUpdate d.url ∈ recordDiags v b d
    ∧ ∃ er, d.ocspErr = some er ∧ Diag.errLine er ∈ recordDiags v b d := by
  obtain ⟨c, server, rest, -, -, -, -, -, -, -, -, -, -, -, -, -, -, hcase⟩ :=
    processEntry_record_shape now e ds d h
  have hfour : (0 : Int) < fourDays := by decide
  rcases hcase with ⟨he, ht, hn, -⟩ | ⟨he, ht, hn, -, -⟩ | ⟨he, -⟩
  · refine ⟨ht, hn, ?_, ?_, _, he, errLine_mem_recordDiags v b d _ he⟩
    · exact (badOOD_mem_recordDiags v b d).mpr (by rw [hn]; linarith)
    · refine (stale_mem_recordDiags v b d).mpr ?_
      rw [ht]
      simpa using hb
  · refine ⟨ht, hn, ?_, ?_, _, he, errLine_mem_recordDiags v b d _ he⟩
    · exact (badOOD_mem_recordDiags v b d).mpr (by rw [hn]; linarith)
    · refine (stale_mem_recordDiags v b d).mpr ?_
      rw [ht]
      simpa using hb
  · rw [he] at herr
    simp at herr

/-- C10 witness: the body-read-failure record `dRead` has zero
timestamps and receives both staleness warnings and its error line when
aggregation starts at time `fourDays + 1`. -/
theorem c10_witness :
    dRead.thisUpdate = 0 ∧ dRead.nextUpdate = 0
    ∧ Diag.badlyOutOfDate dRead.serial dRead.thisUpdate
        ∈ recordDiags false (fourDays + 1) dRead
    ∧ Diag.outOfDate dRead.serial dRead.thisUpdate dRead.url
        ∈ recordDiags false (fourDays + 1) dRead
    ∧ ∃ er, dRead.ocspErr = some er
        ∧ Diag.errLine er ∈ recordDiags false (fourDays + 1) dRead :=
  c10_failed_records_warnings 0 entryReadFail [] dRead false (fourDays + 1)
    (by decide) (by decide) (by decide)

end OcspCrawl
